import Mathlib

/-!
Verification of the daily race-data pipeline (Module03) against its
natural-language specification.

The Lean definitions below are a shallow embedding of the Python source:

* `parse_race_time`   — `src/data/transformers.py`, `RaceDataTransformer._parse_race_time`
* `validate_scraped_data` — `src/data/validators.py`, `RaceDataValidator.validate_scraped_data`
* `clean_scraped_data` / `transform_racing_data` — column-level embedding of
  `src/data/transformers.py` and `src/flows/daily_scrape.py`
* `export_parquet` / `export_processed_data` — `src/data/exporters.py` and
  `src/flows/daily_scrape.py`
* `make_request` / `scrape_daily_races` — `src/scrapers/base.py`, `src/scrapers/tab_scraper.py`
* `daily_race_scraping_flow` — `src/flows/daily_scrape.py`
* `detect_data_anomalies` — `src/flows/monitoring.py`

Python strings are Lean `String`s, Python ints are `Int`/`Nat`, float
arithmetic on counts is modelled exactly over `ℚ` (and `ℝ` where the source
takes a square root).  Fallible Python code (raising, `try`/`except`) is
modelled with `Option`/`Except`.  External effects (the network, the file
system) enter as explicit oracle parameters.
-/

/-! ### Python string/int primitives used by `_parse_race_time`

`str.split(':')` splits on every colon and never collapses empty pieces;
`int(s)` strips ASCII whitespace, accepts one optional sign, then digits
optionally separated by single underscores. -/

def pyWhitespace (c : Char) : Bool :=
  c == ' ' || c == '\t' || c == '\n' || c == '\r' || c == '\x0b' || c == '\x0c'

def stripWs (l : List Char) : List Char :=
  ((l.dropWhile pyWhitespace).reverse.dropWhile pyWhitespace).reverse

/-- Value of the digit word after its first digit: digits, optionally
separated by single underscores (`int("1_0") = 10` in Python). -/
def pyDigitsRest (acc : Nat) : List Char → Option Nat
  | [] => some acc
  | '_' :: c :: cs =>
    if c.isDigit then pyDigitsRest (acc * 10 + (c.toNat - 48)) cs else none
  | c :: cs =>
    if c.isDigit then pyDigitsRest (acc * 10 + (c.toNat - 48)) cs else none

def pyDigits : List Char → Option Nat
  | [] => none
  | c :: cs => if c.isDigit then pyDigitsRest (c.toNat - 48) cs else none

/-- Sign handling of Python `int(s)` after whitespace stripping. -/
def pySigned : List Char → Option Int
  | [] => none
  | a :: rest =>
    if a = '-' then (pyDigits rest).map (fun n : Nat => -(n : Int))
    else if a = '+' then (pyDigits rest).map (fun n : Nat => (n : Int))
    else (pyDigits (a :: rest)).map (fun n : Nat => (n : Int))

/-- Python `int(s)` on a string: strip whitespace, optional sign, digit word. -/
def pyInt (l : List Char) : Option Int :=
  pySigned (stripWs l)

def pySplitAux (c : Char) : List (List Char) → List (List Char)
  | [] => [[c]]
  | h :: t => (c :: h) :: t

/-- Python `s.split(sep)` for a one-character separator: `"" ↦ [""]`,
empty pieces kept. -/
def pySplit (sep : Char) : List Char → List (List Char)
  | [] => [[]]
  | c :: cs => if c == sep then [] :: pySplit sep cs else pySplitAux c (pySplit sep cs)

def pySplitColon (s : List Char) : List (List Char) := pySplit ':' s

/-- `int(hours) * 60 + int(minutes)` when both conversions succeed; a
conversion failure is caught by the bare `except`, yielding 0. -/
def raceMinutes (oh om : Option Int) : Int :=
  match oh, om with
  | some hh, some mm => hh * 60 + mm
  | _, _ => 0

/-- `hours, minutes = time_str.split(':')` needs exactly two pieces; the
unpacking of any other shape raises, caught by the bare `except` as 0. -/
def raceTimeOfPieces : List (List Char) → Int
  | [h, m] => raceMinutes (pyInt h) (pyInt m)
  | _ => 0

/-- `RaceDataTransformer._parse_race_time`: if the string contains a colon,
split it and combine the two `int`-converted pieces; otherwise 0. -/
def parseRaceTimeCore (s : List Char) : Int :=
  if s.contains ':' then raceTimeOfPieces (pySplitColon s) else 0

def parse_race_time (s : String) : Int :=
  parseRaceTimeCore s.data

/-! ### Data model for raw scraped records (validator input)

A raw record is a Python dict from field name to scalar value; `none`
models Python `None`, and `Value.nested` models a non-scalar cell (the
`horses` list).  A batch is converted to a Polars DataFrame whose columns
are the union of the record keys in first-appearance order; the conversion
raises when one column mixes distinct non-null value kinds. -/

inductive Value where
  | intV (n : Int)
  | strV (s : String)
  | nested
  deriving DecidableEq, Repr

def RawRecord : Type := List (String × Option Value)

instance : DecidableEq RawRecord := by
  unfold RawRecord
  infer_instance

/-- Column names of `pl.DataFrame(raw_data)`: union of keys, first-appearance order. -/
def dfColumns (raw : List RawRecord) : List String :=
  raw.foldl (fun acc r => r.foldl (fun a kv => if a.contains kv.1 then a else a ++ [kv.1]) acc) []

/-- Cell of record `r` in column `c`: a key missing from the dict is a null cell. -/
def cellOf (r : RawRecord) (c : String) : Option Value :=
  match r.lookup c with
  | none => none
  | some v => v

def colCells (raw : List RawRecord) (c : String) : List (Option Value) :=
  raw.map (fun r => cellOf r c)

inductive VKind where
  | intK
  | strK
  | nestedK
  deriving DecidableEq, Repr

def kindOf : Value → VKind
  | .intV _ => .intK
  | .strV _ => .strK
  | .nested => .nestedK

/-- One DataFrame column is well typed when its non-null cells share one kind. -/
def colConsistent (cells : List (Option Value)) : Bool :=
  match cells.filterMap id with
  | [] => true
  | v :: vs => vs.all (fun w => kindOf w == kindOf v)

/-- `pl.DataFrame(raw_data)` succeeds iff every column is well typed;
otherwise the constructor raises and `validate_scraped_data` records
`Failed to create DataFrame`. -/
def dfCreateOk (raw : List RawRecord) : Bool :=
  (dfColumns raw).all (fun c => colConsistent (colCells raw c))

/-! ### Calendar dates (for the date-validity check) -/

structure PyDate where
  year : Nat
  month : Nat
  day : Nat
  deriving DecidableEq, Repr

def isLeapYear (y : Nat) : Bool :=
  (y % 4 == 0 && y % 100 != 0) || y % 400 == 0

def daysInMonth (y m : Nat) : Nat :=
  if m == 2 then (if isLeapYear y then 29 else 28)
  else if m == 4 || m == 6 || m == 9 || m == 11 then 30
  else 31

def allDigits (l : List Char) : Bool := l.all Char.isDigit

def digitsToNat (l : List Char) : Nat :=
  l.foldl (fun acc c => acc * 10 + (c.toNat - 48)) 0

/-- `str.to_date` with the inferred `%Y-%m-%d` format: three dash-separated
digit groups forming a valid calendar date. -/
def parsePyDate (s : String) : Option PyDate :=
  match pySplit '-' s.data with
  | [ys, ms, ds] =>
    if ys.length == 4 && ms.length == 2 && ds.length == 2 &&
        allDigits ys && allDigits ms && allDigits ds then
      let y := digitsToNat ys
      let m := digitsToNat ms
      let d := digitsToNat ds
      if 1 ≤ m && m ≤ 12 && 1 ≤ d && d ≤ daysInMonth y m then
        some ⟨y, m, d⟩
      else none
    else none
  | _ => none

def dateKey (d : PyDate) : Nat := d.year * 10000 + d.month * 100 + d.day

def dateAfter (d today : PyDate) : Bool := dateKey today < dateKey d

/-! ### Validation diagnostics

Each constructor stands for one `errors.append`/`warnings.append` message of
`validators.py`, carrying the data interpolated into the message text. -/

inductive Diag where
  | noData                                -- "No data provided for validation"
  | dataFrameFailed                       -- "Failed to create DataFrame: {e}"
  | missingRequiredFields (fields : List String)  -- "Missing required fields: {missing_fields}"
  | dateColumnMissing                     -- "Date column missing"
  | dateValidationFailed                  -- "Date validation failed: {e}"
  | nullDates (n : Nat)                   -- "{n} records have null dates"
  | futureDates (n : Nat)                 -- "{n} records have future dates"
  | raceNumberValidationFailed            -- "Race number validation failed: {e}"
  | unusualRaceNumbers (n : Nat)          -- "{n} records have unusual race numbers"
  | trackValidationFailed                 -- "Track validation failed: {e}"
  | missingTrackNames (n : Nat)           -- "{n} records have missing track names"
  | horseDataTodo                         -- "Horse data validation not yet implemented ..."
  deriving DecidableEq, Repr

/-- Whether the rendered message of a diagnostic names the given field.
`missingRequiredFields` interpolates the missing field names; the
`Date column missing` message names the `date` field.  No other message
mentions a required field by name. -/
def mentionsField : Diag → String → Bool
  | .missingRequiredFields fs, f => fs.contains f
  | .dateColumnMissing, f => f == "date"
  | _, _ => false

structure ValidationStats where
  total_records : Nat
  races_processed : Nat
  data_quality_score : Option ℚ
  deriving DecidableEq, Repr

structure ValidationResult where
  is_valid : Bool
  errors : List Diag
  warnings : List Diag
  stats : ValidationStats
  deriving DecidableEq, Repr

/-- A date cell survives `pl.col('date').str.to_date()`: nulls pass through,
string cells must parse, non-string cells make the expression raise. -/
def dateCellOk (c : Option Value) : Bool :=
  match c with
  | none => true
  | some (.strV s) => (parsePyDate s).isSome
  | some _ => false

def cellParsedDate (c : Option Value) : Option PyDate :=
  match c with
  | some (.strV s) => parsePyDate s
  | _ => none

/-- `RaceDataValidator._check_date_validity`. -/
def check_date_validity (today : PyDate) (raw : List RawRecord) : List Diag × List Diag :=
  if !(dfColumns raw).contains "date" then ([.dateColumnMissing], [])
  else
    let cells := colCells raw "date"
    if cells.all dateCellOk then
      let nullDates := (cells.filter (fun c => c == none)).length
      let errs : List Diag := if nullDates > 0 then [.nullDates nullDates] else []
      let futureDates :=
        (cells.filterMap cellParsedDate).countP (fun d => dateAfter d today)
      let warns : List Diag := if futureDates > 0 then [.futureDates futureDates] else []
      (errs, warns)
    else ([.dateValidationFailed], [])

/-- `RaceDataValidator._check_race_numbers`: comparing a non-numeric column
with an integer raises (caught as an error); out-of-range values in
`[1,15]`-complement are only warnings. -/
def check_race_numbers (raw : List RawRecord) : List Diag × List Diag :=
  if !(dfColumns raw).contains "race_number" then ([], [])
  else
    let cells := colCells raw "race_number"
    if cells.any (fun c =>
        match c with
        | some (.strV _) => true
        | some .nested => true
        | _ => false) then ([.raceNumberValidationFailed], [])
    else
      let invalid := cells.countP (fun c =>
        match c with
        | some (.intV n) => n < 1 || n > 15
        | _ => false)
      if invalid > 0 then ([], [.unusualRaceNumbers invalid]) else ([], [])

/-- `RaceDataValidator._check_track_names`: comparing a non-string column
with `""` raises (caught as an error); null or empty track names are errors. -/
def check_track_names (raw : List RawRecord) : List Diag × List Diag :=
  if !(dfColumns raw).contains "track" then ([], [])
  else
    let cells := colCells raw "track"
    if cells.any (fun c =>
        match c with
        | some (.intV _) => true
        | some .nested => true
        | _ => false) then ([.trackValidationFailed], [])
    else
      let empty := cells.countP (fun c =>
        match c with
        | none => true
        | some (.strV s) => s == ""
        | _ => false)
      if empty > 0 then ([.missingTrackNames empty], []) else ([], [])

/-- `RaceDataValidator._check_horse_data_quality`: only a placeholder warning. -/
def check_horse_data_quality (raw : List RawRecord) : List Diag × List Diag :=
  if (dfColumns raw).contains "horses" then ([], [.horseDataTodo]) else ([], [])

def requiredFields : List String := ["date", "race_number", "track", "source"]

/-- `RaceDataValidator.validate_scraped_data`.  `today` is the validation
time used by the future-date check (`date.today()` in the source). -/
def validate_scraped_data (today : PyDate) (raw : List RawRecord) : ValidationResult :=
  let stats0 : ValidationStats :=
    { total_records := raw.length, races_processed := 0, data_quality_score := none }
  if raw.isEmpty then
    { is_valid := false, errors := [.noData], warnings := [], stats := stats0 }
  else if !dfCreateOk raw then
    { is_valid := false, errors := [.dataFrameFailed], warnings := [], stats := stats0 }
  else
    let stats1 := { stats0 with races_processed := raw.length }
    let missing := requiredFields.filter (fun f => !(dfColumns raw).contains f)
    let errs0 : List Diag :=
      if missing.isEmpty then [] else [.missingRequiredFields missing]
    let c1 := check_date_validity today raw
    let c2 := check_race_numbers raw
    let c3 := check_track_names raw
    let c4 := check_horse_data_quality raw
    let errors := errs0 ++ c1.1 ++ c2.1 ++ c3.1 ++ c4.1
    let warnings := c1.2 ++ c2.2 ++ c3.2 ++ c4.2
    -- total_checks = len(validation_checks) * 4 = 16, failed_checks = len(errors)
    let score : ℚ := max 0 ((16 - (errors.length : ℚ)) / 16)
    { is_valid := errors.isEmpty, errors := errors, warnings := warnings,
      stats := { stats1 with data_quality_score := some score } }

/-! ### Transform stage, column-level embedding

For the column-set claims the DataFrame is represented by its list of
column names.  `pl.DataFrame.with_columns` replaces a column in place when
an output name already exists and appends it otherwise; an expression whose
input column is absent raises `ColumnNotFoundError`.  Cell contents are
abstracted away: the embedding accepts every frame whose columns let each
expression resolve, which includes every frame the Python code accepts. -/

def withColumn (cols : List String) (c : String) : List String :=
  if cols.contains c then cols else cols ++ [c]

def withColumns (cols : List String) (out : List String) : List String :=
  out.foldl withColumn cols

/-- Input columns read by the `with_columns` of `clean_scraped_data`. -/
def cleanInputs : List String := ["date", "track", "source", "race_time"]

/-- Output names of the `with_columns` of `clean_scraped_data`
(`source` has no alias, so it is overwritten in place). -/
def cleanOutputs : List String := ["race_date", "track_clean", "source", "race_minutes"]

/-- `RaceDataTransformer.clean_scraped_data`, column level. -/
def clean_scraped_data (cols : List String) : Except String (List String) :=
  if cleanInputs.all cols.contains then .ok (withColumns cols cleanOutputs)
  else .error "Data cleaning failed"

def featureInputs : List String := ["race_date", "race_minutes", "track_clean", "scraped_at"]

def featureOutputs : List String :=
  ["day_of_week", "month", "race_hour", "track_race_count", "scraped_timestamp", "processed_at"]

/-- `RaceDataTransformer.engineer_basic_features`, column level. -/
def engineer_basic_features (cols : List String) : Except String (List String) :=
  if featureInputs.all cols.contains then .ok (withColumns cols featureOutputs)
  else .error "Feature engineering failed"

def bettingInputs : List String := ["race_minutes", "track_clean"]

def bettingOutputs : List String := ["minutes_to_post", "track_type", "field_size"]

/-- `RaceDataTransformer.create_betting_features`, column level. -/
def create_betting_features (cols : List String) : Except String (List String) :=
  if bettingInputs.all cols.contains then .ok (withColumns cols bettingOutputs)
  else .error "Betting feature engineering failed"

/-- The `transform_racing_data` task: clean, then basic features, then
betting features; any raising step aborts the task. -/
def transform_racing_data (cols : List String) : Except String (List String) :=
  match clean_scraped_data cols with
  | .error e => .error e
  | .ok c1 =>
    match engineer_basic_features c1 with
    | .error e => .error e
    | .ok c2 => create_betting_features c2

/-- Every column name added by some step of the transform chain. -/
def derivedFeatureColumns : List String :=
  cleanOutputs ++ featureOutputs ++ bettingOutputs

/-! ### Export stage

`DataExporter` keeps cumulative statistics (`export_stats`); `_update_stats`
runs after a successful file write, the raised write error skips it.  The
file write itself is I/O, represented by the `writeOk` oracle; `now` stands
for `datetime.now().isoformat()`. -/

structure ExportStats where
  total_exports : Nat
  total_records : Nat
  formats_used : List String
  last_export : Option String
  deriving DecidableEq, Repr

def initExportStats : ExportStats :=
  { total_exports := 0, total_records := 0, formats_used := [], last_export := none }

def addFormat (l : List String) (f : String) : List String :=
  if l.contains f then l else l ++ [f]

/-- `DataExporter._update_stats`. -/
def updateStats (now : String) (recordCount : Nat) (formatType : String)
    (s : ExportStats) : ExportStats :=
  { total_exports := s.total_exports + 1
    total_records := s.total_records + recordCount
    formats_used := addFormat s.formats_used formatType
    last_export := some now }

/-- Common skeleton of `DataExporter.export_parquet`, `export_csv` and
`export_json_lines`: build `output_dir / (filename + ext)`, write the file
(the `writeOk` oracle decides whether the I/O raises), then run
`_update_stats(len(df), fmt)` and return the path.  A raised write happens
before `_update_stats`, so the error carries the untouched statistics. -/
def exportFile (fmt ext : String) (writeOk : Bool) (now : String) (rows : Nat)
    (filename : String) (s : ExportStats) : Except ExportStats (String × ExportStats) :=
  if writeOk then .ok ("processed_data/" ++ filename ++ ext, updateStats now rows fmt s)
  else .error s

/-- `DataExporter.export_parquet`. -/
def export_parquet : Bool → String → Nat → String → ExportStats →
    Except ExportStats (String × ExportStats) :=
  exportFile "parquet" ".parquet"

/-- `DataExporter.export_csv`. -/
def export_csv : Bool → String → Nat → String → ExportStats →
    Except ExportStats (String × ExportStats) :=
  exportFile "csv" ".csv"

/-- `DataExporter.export_json_lines`. -/
def export_json_lines : Bool → String → Nat → String → ExportStats →
    Except ExportStats (String × ExportStats) :=
  exportFile "jsonl" ".jsonl"

/-- `DataExporter.export_daily_summary_report`: build the summary frame
(`summaryRows` rows), export it under `daily_summary_<date>` as parquet and
then csv — each through the statistics update of its export function — then
write the human-readable text report (whose failure raises only after the
two statistics updates) and return the parquet path. -/
def export_daily_summary_report (writeOkP writeOkC writeOkReport : Bool) (now : String)
    (summaryRows : Nat) (dateStr : String) (s : ExportStats) :
    Except ExportStats (String × ExportStats) :=
  match export_parquet writeOkP now summaryRows ("daily_summary_" ++ dateStr) s with
  | .error s1 => .error s1
  | .ok (pp, s1) =>
    match export_csv writeOkC now summaryRows ("daily_summary_" ++ dateStr) s1 with
    | .error s2 => .error s2
    | .ok (_, s2) => if writeOkReport then .ok (pp, s2) else .error s2

/-- The formats the `export_processed_data` task knows how to emit, in the
order of its `if` blocks; requested formats outside this list are ignored. -/
def knownFormats : List String := ["parquet", "csv", "summary"]

def formatPath (dateStr : String) (fmt : String) : String :=
  if fmt == "summary" then "processed_data/daily_summary_" ++ dateStr ++ ".parquet"
  else "processed_data/racing_data_" ++ dateStr ++ "." ++ fmt

/-- One `if fmt in export_formats:` block of `export_processed_data`:
attempt the export when requested, raising out of the task on failure
(the exception is rendered as the string the flow stores in `error`). -/
def exportFormatStep (fail : String → Bool) (dateStr : String) (formats : List String)
    (acc : List (String × String)) (fmt : String) : Except String (List (String × String)) :=
  if formats.contains fmt then
    if fail fmt then .error "ExportError" else .ok (acc ++ [(fmt, formatPath dateStr fmt)])
  else .ok acc

/-- The `export_processed_data` task: sequential parquet, csv, summary
blocks; the first failing export raises and the collected paths are lost. -/
def export_processed_data (fail : String → Bool) (dateStr : String)
    (formats : List String) : Except String (List (String × String)) :=
  match exportFormatStep fail dateStr formats [] "parquet" with
  | .error e => .error e
  | .ok a1 =>
    match exportFormatStep fail dateStr formats a1 "csv" with
    | .error e => .error e
    | .ok a2 => exportFormatStep fail dateStr formats a2 "summary"

/-! ### Fetch stage (`BaseScraper.make_request`, `TABScraper.scrape_daily_races`)

The network is an oracle from the attempt index to an outcome: `ok` (the
GET returns and `raise_for_status` passes), `httpErr` (the GET returns a
bad status, so `request_count` was already incremented) or `connErr` (the
GET itself raises).  Log lines relevant to the claims are recorded as
structured messages. -/

inductive AttemptOutcome where
  | ok
  | httpErr
  | connErr
  deriving DecidableEq, Repr

inductive LogMsg where
  | robotsBlocked                -- "Robots.txt disallows scraping {url}"
  | requestFailed (attempt : Nat)  -- "Request failed (attempt {i+1}/{max}): {e}"
  | failedAfter (attempts : Nat)   -- "Failed to fetch {url} after {n} attempts"
  deriving DecidableEq, Repr

structure ScraperState where
  request_count : Nat
  failed_requests : Nat
  log : List LogMsg
  deriving DecidableEq, Repr

def initScraperState : ScraperState :=
  { request_count := 0, failed_requests := 0, log := [] }

structure ScrapingConfig where
  base_delay : ℚ
  max_delay : ℚ
  timeout : Nat
  max_retries : Nat
  respect_robots : Bool
  deriving DecidableEq, Repr

/-- The configuration `TABScraper.__init__` builds (`max_retries` keeps the
`ScrapingConfig` default of 3). -/
def tabConfig : ScrapingConfig :=
  { base_delay := 2, max_delay := 5, timeout := 30, max_retries := 3, respect_robots := true }

/-- The `for attempt in range(max_retries)` loop of `make_request`; `i` is
the current attempt index, `fuel` the number of attempts still allowed. -/
def makeRequestLoop (attempts : Nat → AttemptOutcome) (maxRetries : Nat) :
    Nat → Nat → ScraperState → Option Unit × ScraperState
  | _, 0, st => (none, st)
  | i, fuel + 1, st =>
    match attempts i with
    | .ok => (some (), { st with request_count := st.request_count + 1 })
    | .httpErr =>
      let st1 : ScraperState :=
        { st with request_count := st.request_count + 1
                  failed_requests := st.failed_requests + 1
                  log := st.log ++ [.requestFailed i] }
      if fuel == 0 then (none, { st1 with log := st1.log ++ [.failedAfter maxRetries] })
      else makeRequestLoop attempts maxRetries (i + 1) fuel st1
    | .connErr =>
      let st1 : ScraperState :=
        { st with failed_requests := st.failed_requests + 1
                  log := st.log ++ [.requestFailed i] }
      if fuel == 0 then (none, { st1 with log := st1.log ++ [.failedAfter maxRetries] })
      else makeRequestLoop attempts maxRetries (i + 1) fuel st1

/-- `BaseScraper.make_request`: robots gate, then up to `max_retries`
attempts; exhausting the attempts logs the failure and returns `None`. -/
def make_request (robotsOk : Bool) (attempts : Nat → AttemptOutcome)
    (cfg : ScrapingConfig) (st : ScraperState) : Option Unit × ScraperState :=
  if !robotsOk then (none, { st with log := st.log ++ [.robotsBlocked] })
  else makeRequestLoop attempts cfg.max_retries 0 cfg.max_retries st

/-- `TABScraper.scrape_daily_races` on a fresh scraper (the flow constructs
`TABScraper()` per run): a `None` response gives the empty record list, and
the parsed race cards (HTML parsing is the `cards` black box, a failed card
parse contributing `none`) are filtered into the result. -/
def scrape_daily_races (robotsOk : Bool) (attempts : Nat → AttemptOutcome)
    (cards : List (Option RawRecord)) : List RawRecord × ScraperState :=
  match make_request robotsOk attempts tabConfig initScraperState with
  | (none, st) => ([], st)
  | (some _, st) => (cards.filterMap id, st)

/-! ### Pipeline orchestrator (`daily_race_scraping_flow`)

Each Prefect task is represented by its final outcome after the task-level
retries: a value, or the exception that escaped (a `String` message).  The
flow body sequences the stages with early returns; its `except` clause
turns any escaped exception into the `failed` status. -/

structure PipelineStats where
  target_date : String
  status : String
  records_processed : Option Nat
  export_paths : Option (List (String × String))
  error_message : Option String
  deriving DecidableEq, Repr

def noDataStats (dateStr : String) : PipelineStats :=
  { target_date := dateStr, status := "no_data", records_processed := none,
    export_paths := none, error_message := none }

def validationFailedStats (dateStr : String) : PipelineStats :=
  { target_date := dateStr, status := "validation_failed", records_processed := none,
    export_paths := none, error_message := none }

def failedStats (dateStr : String) (e : String) : PipelineStats :=
  { target_date := dateStr, status := "failed", records_processed := none,
    export_paths := none, error_message := some e }

/-- `daily_race_scraping_flow`, generic in the dataset type `D` produced by
the transform task. -/
def daily_race_scraping_flow {D : Type} (dateStr : String)
    (scrapeTask : Except String (List RawRecord))
    (validateTask : List RawRecord → Except String Bool)
    (transformTask : List RawRecord → Except String D)
    (rowCount : D → Nat)
    (exportTask : D → Except String (List (String × String)))
    (metricsTask : D → Except String Unit) : PipelineStats :=
  match scrapeTask with
  | .error e => failedStats dateStr e
  | .ok raw =>
    if raw.isEmpty then noDataStats dateStr
    else
      match validateTask raw with
      | .error e => failedStats dateStr e
      | .ok false => validationFailedStats dateStr
      | .ok true =>
        match transformTask raw with
        | .error e => failedStats dateStr e
        | .ok df =>
          match exportTask df with
          | .error e => failedStats dateStr e
          | .ok paths =>
            match metricsTask df with
            | .error e => failedStats dateStr e
            | .ok _ =>
              { target_date := dateStr, status := "success",
                records_processed := some (rowCount df),
                export_paths := some paths, error_message := none }

/-! ### Quality monitor (`detect_data_anomalies`)

The monitored dataset row carries the two columns the anomaly checks read:
`race_date` and `track_clean` (nullable).  Per-day counts are grouped in
first-appearance order; `mean`/`std` are the Polars mean and sample
standard deviation (`ddof = 1`, `None` on fewer than two groups, and
`if std_races and std_races > 0` treats `None` and `0.0` alike).  The
square root forces the real-number comparisons to be classical. -/

structure MonRow where
  race_date : String
  track_clean : Option String
  deriving DecidableEq, Repr

def uniqueDates (rows : List MonRow) : List String :=
  rows.foldl (fun acc r => if acc.contains r.race_date then acc else acc ++ [r.race_date]) []

/-- `df.group_by('race_date').agg(pl.len().alias('race_count'))`. -/
def dailyCounts (rows : List MonRow) : List (String × Nat) :=
  (uniqueDates rows).map (fun d => (d, (rows.filter (fun r => r.race_date == d)).length))

def meanQ (cs : List Nat) : ℚ :=
  (cs.map (fun c : Nat => (c : ℚ))).sum / (cs.length : ℚ)

/-- Sample variance with `ddof = 1`, the square of the Polars `std`. -/
def sampleVarQ (cs : List Nat) : ℚ :=
  ((cs.map (fun c : Nat => ((c : ℚ) - meanQ cs) ^ 2)).sum) / ((cs.length : ℚ) - 1)

noncomputable def sampleStd (cs : List Nat) : ℝ :=
  Real.sqrt ((sampleVarQ cs : ℚ) : ℝ)

inductive Anomaly where
  | lowVolume (numDays : Nat) (threshold : ℝ) (affectedDates : List String)
  | missingTrack (track : String)
  | dataQuality (percentage : ℚ)

open Classical in
/-- The low-volume block of `detect_data_anomalies`: when `std` is defined
and positive, the days whose count is strictly below `avg - 2 * std` are
collected into one `low_volume` anomaly (none when no day qualifies). -/
noncomputable def lowVolumeAnomalies (rows : List MonRow) : List Anomaly :=
  let counts := dailyCounts rows
  let avg : ℝ := (meanQ (counts.map Prod.snd) : ℚ)
  let std : ℝ := sampleStd (counts.map Prod.snd)
  if 2 ≤ counts.length ∧ 0 < std then
    let threshold : ℝ := avg - 2 * std
    let lowDays := counts.filter (fun p => decide ((p.2 : ℝ) < threshold))
    if 0 < lowDays.length then
      [.lowVolume lowDays.length threshold (lowDays.map Prod.fst)]
    else []
  else []

def expectedMajorTracks : List String := ["ELLERSLIE", "TRENTHAM", "RICCARTON"]

/-- The missing-track block: an expected major track with no appearances. -/
def missingTrackAnomalies (rows : List MonRow) : List Anomaly :=
  expectedMajorTracks.filterMap (fun t =>
    if rows.any (fun r => r.track_clean == some t) then none
    else some (.missingTrack t))

/-- `pl.col('track_clean').is_in(['UNKNOWN', '', None])`, with the `None`
list entry modelled as matching null cells. -/
def isUnknownTrack (c : Option String) : Bool :=
  match c with
  | none => true
  | some s => s == "UNKNOWN" || s == ""

/-- The data-quality block: more than 5% unknown/empty track names. -/
def dataQualityAnomalies (rows : List MonRow) : List Anomaly :=
  let unknown := (rows.filter (fun r => isUnknownTrack r.track_clean)).length
  if unknown > 0 then
    let pct : ℚ := ((unknown : ℚ) / (rows.length : ℚ)) * 100
    if pct > 5 then [.dataQuality pct] else []
  else []

structure AnomalyTaskResult where
  status : String
  anomalies : List Anomaly

/-- `detect_data_anomalies` from `src/flows/monitoring.py`. -/
noncomputable def detect_data_anomalies (rows : List MonRow) : AnomalyTaskResult :=
  if rows.isEmpty then { status := "no_data", anomalies := [] }
  else
    { status := "success",
      anomalies :=
        lowVolumeAnomalies rows ++ missingTrackAnomalies rows ++ dataQualityAnomalies rows }

/-! ### Concrete inputs used by the claim witnesses and counterexamples -/

deriving instance DecidableEq for Except

/-- A non-empty batch whose single column mixes int and string cells: the
DataFrame constructor raises before the required-field check can run. -/
def mixedKindBatch : List RawRecord :=
  [[("a", some (.intV 1))], [("a", some (.strV "x"))]]

/-- A non-empty batch missing the `date` field (and the other required ones). -/
def trackOnlyBatch : List RawRecord := [[("track", some (.strV "Ellerslie"))]]

/-- One fully-populated raw record, as produced by a successful scrape. -/
def goodBatch : List RawRecord :=
  [[("date", some (.strV "2024-01-15")), ("race_time", some (.strV "14:30")),
    ("race_number", some (.intV 1)), ("track", some (.strV "Ellerslie")),
    ("distance", some (.intV 1200)), ("source", some (.strV "tab_nz")),
    ("scraped_at", some (.strV "2024-01-15T20:00:00"))]]

/-- Builds a monitoring dataset with the given per-day record counts,
every row at the venue `T`. -/
def mkRows (spec : List (String × Nat)) : List MonRow :=
  (spec.map (fun p => List.replicate p.2 (⟨p.1, some "T"⟩ : MonRow))).flatten

/-- Six days with five records each and a seventh day with one record. -/
def rows31 : List MonRow :=
  mkRows [("d1", 5), ("d2", 5), ("d3", 5), ("d4", 5), ("d5", 5), ("d6", 5), ("d7", 1)]

/-- Seven days with counts 4, 5, 6, 6, 3, 7, 8; the count of day `d5` (3) is
more than two standard deviations below the mean of the other six days. -/
def rows39 : List MonRow :=
  mkRows [("d1", 4), ("d2", 5), ("d3", 6), ("d4", 6), ("d5", 3), ("d6", 7), ("d7", 8)]

/-! ### Lemmas about the Python string primitives -/

theorem pySplit_ne_nil (sep : Char) (s : List Char) : pySplit sep s ≠ [] := by
  induction s with
  | nil => simp [pySplit]
  | cons a cs ih =>
    simp only [pySplit]
    by_cases h : a == sep
    · simp [h]
    · rw [if_neg h]
      cases hr : pySplit sep cs with
      | nil => simp [pySplitAux]
      | cons b t => simp [pySplitAux]

theorem mem_of_mem_pySplit {sep : Char} {s p : List Char} {c : Char}
    (hp : p ∈ pySplit sep s) (hc : c ∈ p) : c ∈ s := by
  induction s generalizing p with
  | nil =>
    simp [pySplit] at hp
    rw [hp] at hc
    simp at hc
  | cons a cs ih =>
    simp only [pySplit] at hp
    by_cases h : a == sep
    · rw [if_pos h] at hp
      rcases List.mem_cons.mp hp with h1 | h1
      · rw [h1] at hc; simp at hc
      · exact List.mem_cons_of_mem a (ih h1 hc)
    · rw [if_neg h] at hp
      cases hr : pySplit sep cs with
      | nil => exact absurd hr (pySplit_ne_nil sep cs)
      | cons b t =>
        rw [hr, pySplitAux] at hp
        rcases List.mem_cons.mp hp with h1 | h1
        · rw [h1] at hc
          rcases List.mem_cons.mp hc with h2 | h2
          · rw [h2]; exact List.mem_cons_self a cs
          · have hb : c ∈ cs := ih (by rw [hr]; exact List.mem_cons_self b t) h2
            exact List.mem_cons_of_mem a hb
        · have hb : c ∈ cs := ih (by rw [hr]; exact List.mem_cons_of_mem b h1) hc
          exact List.mem_cons_of_mem a hb

theorem mem_stripWs {l : List Char} {c : Char} (h : c ∈ stripWs l) : c ∈ l := by
  unfold stripWs at h
  rw [List.mem_reverse] at h
  have h1 := (List.dropWhile_sublist _).mem h
  rw [List.mem_reverse] at h1
  exact (List.dropWhile_sublist _).mem h1

theorem pyInt_nonneg {l : List Char} (hm : '-' ∉ l) {v : Int}
    (h : pyInt l = some v) : 0 ≤ v := by
  unfold pyInt at h
  cases hs : stripWs l with
  | nil => rw [hs] at h; exact absurd h (by simp [pySigned])
  | cons a rest =>
    rw [hs, pySigned] at h
    have ha : a ≠ '-' := by
      intro hcontra
      exact hm (mem_stripWs (by rw [hs, hcontra]; exact List.mem_cons_self _ _))
    rw [if_neg ha] at h
    by_cases hp : a = '+'
    · rw [if_pos hp] at h
      rcases Option.map_eq_some'.mp h with ⟨n, _, hn⟩
      exact hn ▸ Int.natCast_nonneg n
    · rw [if_neg hp] at h
      rcases Option.map_eq_some'.mp h with ⟨n, _, hn⟩
      exact hn ▸ Int.natCast_nonneg n

/-! ### C3 — totality and sign of the race-time parser -/

/-- C3 counterexample: the race-time parser maps the string `-1:30` to `-30`, a negative number of minutes, refuting the claim that every string input yields a non-negative integer. -/
theorem parse_race_time_negative_counterexample :
    parse_race_time "-1:30" = -30 ∧ parse_race_time "-1:30" < 0 := by decide

/-- C3 (amended): the race-time parser is total — it returns an integer for every string and never raises; a string without a colon (malformed input) yields 0, and for every input without a minus sign the result is non-negative. -/
theorem parse_race_time_total_amended (s : String) :
    (s.data.contains ':' = false → parse_race_time s = 0) ∧
    ('-' ∉ s.data → 0 ≤ parse_race_time s) := by
  constructor
  · intro h
    unfold parse_race_time parseRaceTimeCore
    rw [h]
    simp
  · intro hm
    unfold parse_race_time parseRaceTimeCore
    by_cases hc : s.data.contains ':' = true
    · rw [if_pos hc]
      cases hsp : pySplitColon s.data with
      | nil => simp [raceTimeOfPieces]
      | cons p1 t1 =>
        cases t1 with
        | nil => simp [raceTimeOfPieces]
        | cons p2 t2 =>
          cases t2 with
          | cons p3 t3 => simp [raceTimeOfPieces]
          | nil =>
            have hp1 : p1 ∈ pySplitColon s.data := by rw [hsp]; simp
            have hp2 : p2 ∈ pySplitColon s.data := by rw [hsp]; simp
            have h1 : '-' ∉ p1 := fun hmem => hm (mem_of_mem_pySplit hp1 hmem)
            have h2 : '-' ∉ p2 := fun hmem => hm (mem_of_mem_pySplit hp2 hmem)
            cases ho1 : pyInt p1 with
            | none => simp [raceTimeOfPieces, raceMinutes, ho1]
            | some a =>
              cases ho2 : pyInt p2 with
              | none => simp [raceTimeOfPieces, raceMinutes, ho1, ho2]
              | some b =>
                have ha := pyInt_nonneg h1 ho1
                have hb := pyInt_nonneg h2 ho2
                simp only [raceTimeOfPieces, raceMinutes, ho1, ho2]
                omega
    · rw [if_neg hc]

/-- C3 witness: the amended parser theorem evaluated at `abc` (no colon, gives 0) and `14:30` (non-negative). -/
theorem parse_race_time_total_amended_witness :
    parse_race_time "abc" = 0 ∧ 0 ≤ parse_race_time "14:30" :=
  ⟨(parse_race_time_total_amended "abc").1 (by decide),
   (parse_race_time_total_amended "14:30").2 (by decide)⟩

/-! ### C4, C10, C5, C6 — the validation verdict -/

/-- C4: for every batch of raw records and every validation date, the verdict has `is_valid = true` exactly when its error list is empty; warnings never affect validity. -/
theorem validate_is_valid_iff_no_errors (today : PyDate) (raw : List RawRecord) :
    (validate_scraped_data today raw).is_valid = true ↔
      (validate_scraped_data today raw).errors = [] := by
  unfold validate_scraped_data
  split_ifs <;> simp [List.isEmpty_iff]

/-- C10: validating the empty batch yields `is_valid = false`, an error list holding exactly the `No data provided for validation` diagnostic, and `total_records = 0` in the stats. -/
theorem validate_empty_batch (today : PyDate) :
    (validate_scraped_data today []).is_valid = false ∧
    (validate_scraped_data today []).errors = [Diag.noData] ∧
    (validate_scraped_data today []).stats.total_records = 0 :=
  ⟨rfl, rfl, rfl⟩

/-- C5 counterexample: a non-empty batch missing the required `date` field on which the DataFrame constructor raises — validation returns only the `Failed to create DataFrame` error, and no error diagnostic mentions the missing field by name. -/
theorem validate_missing_field_counterexample :
    mixedKindBatch ≠ [] ∧
    (dfColumns mixedKindBatch).contains "date" = false ∧
    (validate_scraped_data ⟨2024, 6, 1⟩ mixedKindBatch).is_valid = false ∧
    ∀ d ∈ (validate_scraped_data ⟨2024, 6, 1⟩ mixedKindBatch).errors,
      mentionsField d "date" = false := by decide

/-- C5 (amended): for every non-empty batch that converts to a DataFrame, a missing required field makes validation return `is_valid = false` together with an error diagnostic that names the missing field. -/
theorem validate_missing_required_field (today : PyDate) (raw : List RawRecord) (f : String)
    (hne : raw ≠ []) (hok : dfCreateOk raw = true)
    (hreq : f ∈ requiredFields) (hmiss : (dfColumns raw).contains f = false) :
    (validate_scraped_data today raw).is_valid = false ∧
    ∃ d ∈ (validate_scraped_data today raw).errors, mentionsField d f = true := by
  have hraw : raw.isEmpty = false := by
    cases raw with
    | nil => exact absurd rfl hne
    | cons r t => rfl
  have hmem : f ∈ requiredFields.filter (fun g => !(dfColumns raw).contains g) :=
    List.mem_filter.mpr ⟨hreq, by rw [hmiss]; rfl⟩
  have hfe : (requiredFields.filter (fun g => !(dfColumns raw).contains g)).isEmpty = false := by
    cases hl : requiredFields.filter (fun g => !(dfColumns raw).contains g) with
    | nil => rw [hl] at hmem; exact absurd hmem (List.not_mem_nil f)
    | cons a t => rfl
  have hcont : (requiredFields.filter (fun g => !(dfColumns raw).contains g)).contains f = true := by
    exact List.elem_iff.mpr hmem
  unfold validate_scraped_data
  simp only [hraw, hok, Bool.not_true, Bool.false_eq_true, if_false, hfe]
  constructor
  · simp
  · refine ⟨.missingRequiredFields (requiredFields.filter (fun g => !(dfColumns raw).contains g)),
      ?_, ?_⟩
    · simp
    · simpa [mentionsField] using hcont

/-- C5 witness: the amended theorem at a one-record batch that only has a `track` field, with `date` as the missing required field. -/
theorem validate_missing_required_field_witness :
    (validate_scraped_data ⟨2024, 6, 1⟩ trackOnlyBatch).is_valid = false ∧
    ∃ d ∈ (validate_scraped_data ⟨2024, 6, 1⟩ trackOnlyBatch).errors,
      mentionsField d "date" = true :=
  validate_missing_required_field ⟨2024, 6, 1⟩ trackOnlyBatch "date"
    (by decide) (by decide) (by decide) (by decide)

/-- C6 counterexample: for the empty batch the verdict carries no data-quality score at all, so the score does not equal the clamped formula value as the claim states for every batch. -/
theorem quality_score_empty_counterexample :
    (validate_scraped_data ⟨2024, 6, 1⟩ []).stats.data_quality_score = none ∧
    (validate_scraped_data ⟨2024, 6, 1⟩ []).errors.length = 1 ∧
    (validate_scraped_data ⟨2024, 6, 1⟩ []).stats.data_quality_score ≠
      some (max 0 ((16 - ((validate_scraped_data ⟨2024, 6, 1⟩ []).errors.length : ℚ)) / 16)) := by
  refine ⟨rfl, rfl, ?_⟩
  decide

/-- C6 (amended): for every non-empty batch that converts to a DataFrame, the data-quality score equals `max 0 ((16 - failed_checks) / 16)`, where `failed_checks` is the number of error diagnostics and 16 the number of check slots, and the score always lies in the interval `[0, 1]`. -/
theorem quality_score_formula (today : PyDate) (raw : List RawRecord)
    (hne : raw ≠ []) (hok : dfCreateOk raw = true) :
    ∃ q : ℚ, (validate_scraped_data today raw).stats.data_quality_score = some q ∧
      q = max 0 ((16 - ((validate_scraped_data today raw).errors.length : ℚ)) / 16) ∧
      0 ≤ q ∧ q ≤ 1 := by
  have hraw : raw.isEmpty = false := by
    cases raw with
    | nil => exact absurd rfl hne
    | cons r t => rfl
  unfold validate_scraped_data
  simp only [hraw, hok, Bool.not_true, Bool.false_eq_true, if_false]
  refine ⟨_, rfl, rfl, le_max_left _ _, ?_⟩
  have hL : (0 : ℚ) ≤ (((if (requiredFields.filter (fun g => !(dfColumns raw).contains g)).isEmpty
      then ([] : List Diag)
      else [.missingRequiredFields (requiredFields.filter (fun g => !(dfColumns raw).contains g))]) ++
      (check_date_validity today raw).1 ++ (check_race_numbers raw).1 ++
      (check_track_names raw).1 ++ (check_horse_data_quality raw).1).length : ℚ) :=
    Nat.cast_nonneg _
  refine max_le (by norm_num) ?_
  rw [div_le_one (by norm_num : (0:ℚ) < 16)]
  linarith

/-- C6 witness: the amended theorem at a fully-populated one-record batch (score 1). -/
theorem quality_score_formula_witness :
    ∃ q : ℚ, (validate_scraped_data ⟨2024, 6, 1⟩ goodBatch).stats.data_quality_score = some q ∧
      q = max 0 ((16 - ((validate_scraped_data ⟨2024, 6, 1⟩ goodBatch).errors.length : ℚ)) / 16) ∧
      0 ≤ q ∧ q ≤ 1 :=
  quality_score_formula ⟨2024, 6, 1⟩ goodBatch (by decide) (by decide)

/-! ### C8 — transform preserves columns -/

theorem mem_withColumn {cols : List String} {c x : String} :
    x ∈ withColumn cols c ↔ x ∈ cols ∨ x = c := by
  unfold withColumn
  split_ifs with h
  · constructor
    · exact Or.inl
    · rintro (h1 | rfl)
      · exact h1
      · exact List.elem_iff.mp h
  · simp

theorem mem_withColumns {out : List String} {cols : List String} {x : String} :
    x ∈ withColumns cols out ↔ x ∈ cols ∨ x ∈ out := by
  induction out generalizing cols with
  | nil => simp [withColumns]
  | cons a t ih =>
    unfold withColumns at ih ⊢
    simp only [List.foldl_cons]
    rw [ih, mem_withColumn]
    simp [or_assoc]

theorem transform_ok_shape {cols out : List String}
    (h : transform_racing_data cols = .ok out) :
    out = withColumns (withColumns (withColumns cols cleanOutputs) featureOutputs) bettingOutputs := by
  unfold transform_racing_data at h
  split at h
  · simp at h
  · next c1 hc =>
    split at h
    · simp at h
    · next c2 hf =>
      unfold clean_scraped_data at hc
      split_ifs at hc with h1
      · injection hc with hc1
        unfold engineer_basic_features at hf
        split_ifs at hf with h2
        · injection hf with hf1
          unfold create_betting_features at h
          split_ifs at h with h3
          · injection h with h4
            rw [← h4, ← hf1, ← hc1]

/-- C8: for every input column set the transform chain accepts, every input column is still present in the output, and the output column set is exactly the union of the input columns and the derived feature columns — transform never drops a column. -/
theorem transform_column_superset (cols out : List String)
    (h : transform_racing_data cols = .ok out) :
    (∀ c ∈ cols, c ∈ out) ∧
    (∀ c, c ∈ out ↔ c ∈ cols ∨ c ∈ derivedFeatureColumns) := by
  have hs := transform_ok_shape h
  constructor
  · intro c hc
    rw [hs, mem_withColumns, mem_withColumns, mem_withColumns]
    exact Or.inl (Or.inl (Or.inl hc))
  · intro c
    rw [hs, mem_withColumns, mem_withColumns, mem_withColumns]
    simp only [derivedFeatureColumns, List.mem_append, or_assoc]

/-- C8 witness: the theorem at the raw-scrape column set; the transform chain accepts it and yields the 20 output columns. -/
theorem transform_column_superset_witness :
    (∀ c ∈ ["date", "race_time", "race_number", "track", "distance", "horses", "source",
        "scraped_at"],
      c ∈ ["date", "race_time", "race_number", "track", "distance", "horses", "source",
        "scraped_at", "race_date", "track_clean", "race_minutes", "day_of_week", "month",
        "race_hour", "track_race_count", "scraped_timestamp", "processed_at",
        "minutes_to_post", "track_type", "field_size"]) ∧
    (∀ c, c ∈ ["date", "race_time", "race_number", "track", "distance", "horses", "source",
        "scraped_at", "race_date", "track_clean", "race_minutes", "day_of_week", "month",
        "race_hour", "track_race_count", "scraped_timestamp", "processed_at",
        "minutes_to_post", "track_type", "field_size"] ↔
      c ∈ ["date", "race_time", "race_number", "track", "distance", "horses", "source",
        "scraped_at"] ∨ c ∈ derivedFeatureColumns) :=
  transform_column_superset
    ["date", "race_time", "race_number", "track", "distance", "horses", "source", "scraped_at"]
    ["date", "race_time", "race_number", "track", "distance", "horses", "source",
     "scraped_at", "race_date", "track_clean", "race_minutes", "day_of_week", "month",
     "race_hour", "track_race_count", "scraped_timestamp", "processed_at",
     "minutes_to_post", "track_type", "field_size"] (by decide)

/-! ### C9 — cumulative export statistics -/

theorem contains_addFormat (l : List String) (f : String) :
    (addFormat l f).contains f = true := by
  unfold addFormat
  split_ifs with h
  · exact h
  · exact List.elem_iff.mpr (List.mem_append_right l (List.mem_singleton.mpr rfl))

theorem mem_addFormat {l : List String} {g : String} (f : String) (h : g ∈ l) :
    g ∈ addFormat l f := by
  unfold addFormat
  split_ifs with h1
  · exact h
  · exact List.mem_append_left _ h

/-- C9: every successful export call, for any format name — `export_parquet`,
`export_csv` and `export_json_lines` are exactly the instances of the common
skeleton at `parquet`, `csv` and `jsonl` — adds exactly 1 to `total_exports`,
adds the exported row count to `total_records`, unions the format name into
`formats_used` and sets `last_export` to the current time; the previous
counters are never decreased, exporting the same dataset and filename a
second time returns the same path and adds the row count again, and a failed
write raises with the statistics untouched.  The daily summary report runs
the parquet and the csv update in sequence, and those two updates survive
(are not rolled back) even when its final report write raises. -/
theorem export_stats_additive (fmt ext now now2 filename dateStr : String)
    (rows : Nat) (s : ExportStats) :
    (∃ p s1, exportFile fmt ext true now rows filename s = .ok (p, s1) ∧
      s1.total_exports = s.total_exports + 1 ∧
      s1.total_records = s.total_records + rows ∧
      s1.formats_used.contains fmt = true ∧
      s1.last_export = some now ∧
      s.total_exports ≤ s1.total_exports ∧
      s.total_records ≤ s1.total_records ∧
      (∀ f ∈ s.formats_used, f ∈ s1.formats_used) ∧
      ∃ p2 s2, exportFile fmt ext true now2 rows filename s1 = .ok (p2, s2) ∧
        p2 = p ∧
        s2.total_records = s.total_records + rows + rows ∧
        s2.total_exports = s.total_exports + 2) ∧
    exportFile fmt ext false now rows filename s = .error s ∧
    export_parquet = exportFile "parquet" ".parquet" ∧
    export_csv = exportFile "csv" ".csv" ∧
    export_json_lines = exportFile "jsonl" ".jsonl" ∧
    (∃ p3 s3, export_daily_summary_report true true true now rows dateStr s = .ok (p3, s3) ∧
      s3.total_exports = s.total_exports + 2 ∧
      s3.total_records = s.total_records + rows + rows ∧
      s3.formats_used.contains "parquet" = true ∧
      s3.formats_used.contains "csv" = true ∧
      s3.last_export = some now) ∧
    (∃ s4, export_daily_summary_report true true false now rows dateStr s = .error s4 ∧
      s4.total_exports = s.total_exports + 2 ∧
      s4.total_records = s.total_records + rows + rows) := by
  refine ⟨⟨_, _, rfl, rfl, rfl, contains_addFormat _ _, rfl, Nat.le_succ _,
    Nat.le_add_right _ _, fun f hf => mem_addFormat _ hf, _, _, rfl, rfl, rfl, rfl⟩,
    rfl, rfl, rfl, rfl,
    ⟨_, _, rfl, rfl, rfl, ?_, contains_addFormat _ _, rfl⟩,
    ⟨_, rfl, rfl, rfl⟩⟩
  exact List.elem_iff.mpr (mem_addFormat _ (List.elem_iff.mp (contains_addFormat _ _)))

/-! ### C1 — exhausted fetch retries end as `no_data` -/

theorem makeRequestLoop_httpErr {attempts : Nat → AttemptOutcome} {i : Nat}
    (ha : attempts i = .httpErr) (m n : Nat) (st : ScraperState) :
    makeRequestLoop attempts m i (n + 1) st =
      (if n == 0 then
        (none, { st with request_count := st.request_count + 1
                         failed_requests := st.failed_requests + 1
                         log := st.log ++ [.requestFailed i] ++ [.failedAfter m] })
      else
        makeRequestLoop attempts m (i + 1) n
          { st with request_count := st.request_count + 1
                    failed_requests := st.failed_requests + 1
                    log := st.log ++ [.requestFailed i] }) := by
  rw [makeRequestLoop, ha]

theorem makeRequestLoop_connErr {attempts : Nat → AttemptOutcome} {i : Nat}
    (ha : attempts i = .connErr) (m n : Nat) (st : ScraperState) :
    makeRequestLoop attempts m i (n + 1) st =
      (if n == 0 then
        (none, { st with failed_requests := st.failed_requests + 1
                         log := st.log ++ [.requestFailed i] ++ [.failedAfter m] })
      else
        makeRequestLoop attempts m (i + 1) n
          { st with failed_requests := st.failed_requests + 1
                    log := st.log ++ [.requestFailed i] }) := by
  rw [makeRequestLoop, ha]

theorem makeRequestLoop_all_fail {attempts : Nat → AttemptOutcome}
    (h : ∀ i, attempts i ≠ .ok) (m : Nat) :
    ∀ fuel, 0 < fuel → ∀ i st,
      (makeRequestLoop attempts m i fuel st).1 = none ∧
      (makeRequestLoop attempts m i fuel st).2.failed_requests = st.failed_requests + fuel ∧
      LogMsg.failedAfter m ∈ (makeRequestLoop attempts m i fuel st).2.log := by
  intro fuel
  induction fuel with
  | zero => intro h0; exact absurd h0 (by simp)
  | succ n ih =>
    intro _ i st
    cases n with
    | zero =>
      cases ha : attempts i with
      | ok => exact absurd ha (h i)
      | httpErr => simp [makeRequestLoop_httpErr ha]
      | connErr => simp [makeRequestLoop_connErr ha]
    | succ k =>
      cases ha : attempts i with
      | ok => exact absurd ha (h i)
      | httpErr =>
        rw [makeRequestLoop_httpErr ha, if_neg (by simp)]
        obtain ⟨h1, h2, h3⟩ := ih (Nat.succ_pos k) (i + 1)
          { st with request_count := st.request_count + 1
                    failed_requests := st.failed_requests + 1
                    log := st.log ++ [.requestFailed i] }
        refine ⟨h1, ?_, h3⟩
        rw [h2]
        simp
        omega
      | connErr =>
        rw [makeRequestLoop_connErr ha, if_neg (by simp)]
        obtain ⟨h1, h2, h3⟩ := ih (Nat.succ_pos k) (i + 1)
          { st with failed_requests := st.failed_requests + 1
                    log := st.log ++ [.requestFailed i] }
        refine ⟨h1, ?_, h3⟩
        rw [h2]
        simp
        omega

/-- C1 (amended): when every one of the 3 configured retry attempts fails, `make_request` returns no response, the failed-request counter of the fresh scraper ends at 3 and the `after 3 attempts` message is logged; the scraper then returns the empty record list, so the orchestrator run terminates with status `no_data` — a fetch failure is not distinguishable from the source having no data for the date. -/
theorem fetch_failure_gives_no_data {D : Type} (attempts : Nat → AttemptOutcome)
    (hfail : ∀ i, attempts i ≠ .ok)
    (cards : List (Option RawRecord)) (dateStr : String)
    (validateTask : List RawRecord → Except String Bool)
    (transformTask : List RawRecord → Except String D) (rowCount : D → Nat)
    (exportTask : D → Except String (List (String × String)))
    (metricsTask : D → Except String Unit) :
    (scrape_daily_races true attempts cards).1 = [] ∧
    (scrape_daily_races true attempts cards).2.failed_requests = 3 ∧
    LogMsg.failedAfter 3 ∈ (scrape_daily_races true attempts cards).2.log ∧
    (daily_race_scraping_flow dateStr (.ok (scrape_daily_races true attempts cards).1)
      validateTask transformTask rowCount exportTask metricsTask).status = "no_data" := by
  obtain ⟨h1, h2, h3⟩ :=
    makeRequestLoop_all_fail hfail 3 3 (by norm_num) 0 initScraperState
  have hmr : make_request true attempts tabConfig initScraperState
      = makeRequestLoop attempts 3 0 3 initScraperState := rfl
  have hscr : scrape_daily_races true attempts cards
      = ([], (makeRequestLoop attempts 3 0 3 initScraperState).2) := by
    unfold scrape_daily_races
    rw [hmr]
    cases hres : makeRequestLoop attempts 3 0 3 initScraperState with
    | mk fst snd =>
      rw [hres] at h1
      simp only at h1
      rw [h1]
  rw [hscr]
  refine ⟨rfl, by simpa using h2, h3, rfl⟩

/-- C1 witness: the amended theorem at a network oracle whose every attempt raises a connection error. -/
theorem fetch_failure_gives_no_data_witness :
    (scrape_daily_races true (fun _ => .connErr) []).1 = [] ∧
    (scrape_daily_races true (fun _ => .connErr) []).2.failed_requests = 3 ∧
    LogMsg.failedAfter 3 ∈ (scrape_daily_races true (fun _ => .connErr) []).2.log ∧
    (daily_race_scraping_flow "2024-01-15"
      (.ok (scrape_daily_races true (fun _ => .connErr) []).1)
      (fun _ => .ok true) (fun _ => .ok ([] : List String)) (fun _ => 0)
      (fun _ => .ok []) (fun _ => .ok ())).status = "no_data" :=
  fetch_failure_gives_no_data (fun _ => .connErr)
    (fun _ hcontra => AttemptOutcome.noConfusion hcontra) [] "2024-01-15"
    (fun _ => .ok true) (fun _ => .ok ([] : List String)) (fun _ => 0)
    (fun _ => .ok []) (fun _ => .ok ())

/-- C1 counterexample: a concrete run whose 3 fetch attempts all fail terminates with status `no_data` and not with status `failed` as the claim states, even though the failed-request counter equals 3 and the `after 3 attempts` message was logged. -/
theorem fetch_failure_not_failed_counterexample :
    (daily_race_scraping_flow "2024-01-15"
      (.ok (scrape_daily_races true (fun _ => .httpErr) []).1)
      (fun _ => .ok true) (fun _ => .ok ([] : List String)) (fun _ => 0)
      (fun _ => .ok []) (fun _ => .ok ())).status = "no_data" ∧
    (daily_race_scraping_flow "2024-01-15"
      (.ok (scrape_daily_races true (fun _ => .httpErr) []).1)
      (fun _ => .ok true) (fun _ => .ok ([] : List String)) (fun _ => 0)
      (fun _ => .ok []) (fun _ => .ok ())).status ≠ "failed" ∧
    (scrape_daily_races true (fun _ => .httpErr) []).2.failed_requests = 3 ∧
    LogMsg.failedAfter 3 ∈ (scrape_daily_races true (fun _ => .httpErr) []).2.log := by
  decide

/-! ### C2 — a per-format export failure fails the run -/

theorem export_processed_data_all_ok (fail : String → Bool) (dateStr : String)
    (formats : List String)
    (h : ∀ f ∈ knownFormats, formats.contains f = true → fail f = false) :
    export_processed_data fail dateStr formats =
      .ok ((knownFormats.filter (fun f => formats.contains f)).map
        (fun f => (f, formatPath dateStr f))) := by
  have hp1 := h "parquet" (by simp [knownFormats])
  have hc1 := h "csv" (by simp [knownFormats])
  have hs1 := h "summary" (by simp [knownFormats])
  cases hp : formats.contains "parquet" <;>
  cases hc : formats.contains "csv" <;>
  cases hs : formats.contains "summary" <;>
    (simp at hp hc hs;
     simp [export_processed_data, exportFormatStep, knownFormats, hp, hc, hs, hp1, hc1, hs1])

theorem export_processed_data_fail (fail : String → Bool) (dateStr : String)
    (formats : List String) (f : String)
    (hf : f ∈ knownFormats) (hreq : formats.contains f = true) (hfl : fail f = true) :
    export_processed_data fail dateStr formats = .error "ExportError" := by
  have hreqm : f ∈ formats := by simpa using hreq
  simp only [knownFormats] at hf
  rcases List.mem_cons.mp hf with h1 | h1
  · subst h1
    simp [export_processed_data, exportFormatStep, hreqm, hfl]
  rcases List.mem_cons.mp h1 with h2 | h2
  · subst h2
    cases hp : formats.contains "parquet" with
    | false =>
      simp at hp
      simp [export_processed_data, exportFormatStep, hp, hreqm, hfl]
    | true =>
      simp at hp
      cases hfp : fail "parquet" with
      | true => simp [export_processed_data, exportFormatStep, hp, hfp]
      | false => simp [export_processed_data, exportFormatStep, hp, hfp, hreqm, hfl]
  rcases List.mem_cons.mp h2 with h3 | h3
  · subst h3
    cases hp : formats.contains "parquet" with
    | false =>
      simp at hp
      cases hc : formats.contains "csv" with
      | false =>
        simp at hc
        simp [export_processed_data, exportFormatStep, hp, hc, hreqm, hfl]
      | true =>
        simp at hc
        cases hfc : fail "csv" with
        | true => simp [export_processed_data, exportFormatStep, hp, hc, hfc]
        | false => simp [export_processed_data, exportFormatStep, hp, hc, hfc, hreqm, hfl]
    | true =>
      simp at hp
      cases hfp : fail "parquet" with
      | true => simp [export_processed_data, exportFormatStep, hp, hfp]
      | false =>
        cases hc : formats.contains "csv" with
        | false =>
          simp at hc
          simp [export_processed_data, exportFormatStep, hp, hfp, hc, hreqm, hfl]
        | true =>
          simp at hc
          cases hfc : fail "csv" with
          | true => simp [export_processed_data, exportFormatStep, hp, hfp, hc, hfc]
          | false => simp [export_processed_data, exportFormatStep, hp, hfp, hc, hfc, hreqm, hfl]
  · exact absurd h3 (List.not_mem_nil f)

theorem flow_export_outcome {D : Type} (dateStr : String) (raw : List RawRecord)
    (validateTask : List RawRecord → Except String Bool)
    (transformTask : List RawRecord → Except String D) (rowCount : D → Nat)
    (exportTask : D → Except String (List (String × String)))
    (metricsTask : D → Except String Unit) (df : D)
    (hraw : raw ≠ []) (hv : validateTask raw = .ok true)
    (ht : transformTask raw = .ok df) (hm : metricsTask df = .ok ()) :
    daily_race_scraping_flow dateStr (.ok raw) validateTask transformTask rowCount
        exportTask metricsTask =
      match exportTask df with
      | .error e => failedStats dateStr e
      | .ok paths =>
        { target_date := dateStr, status := "success",
          records_processed := some (rowCount df),
          export_paths := some paths, error_message := none } := by
  have hre : raw.isEmpty = false := by
    cases raw with
    | nil => exact absurd rfl hraw
    | cons r t => rfl
  unfold daily_race_scraping_flow
  simp only []
  rw [hre]
  simp only [Bool.false_eq_true, if_false]
  rw [hv]
  simp only []
  rw [ht]
  simp only []
  cases he : exportTask df with
  | error e => simp
  | ok paths =>
    simp only []
    rw [hm]

/-- C2 (amended): for every run that reaches the exporting stage, a failure of any requested known format makes `export_processed_data` raise, so the run terminates with status `failed`; only when every requested known format succeeds does the run end with status `success`, and the summary then lists exactly the requested known formats with their paths. -/
theorem export_failure_flips_run_failed {D : Type} (fail : String → Bool)
    (dateStr : String) (raw : List RawRecord) (df : D) (rowCount : D → Nat)
    (validateTask : List RawRecord → Except String Bool)
    (transformTask : List RawRecord → Except String D)
    (metricsTask : D → Except String Unit) (formats : List String)
    (hraw : raw ≠ []) (hv : validateTask raw = .ok true)
    (ht : transformTask raw = .ok df) (hm : metricsTask df = .ok ()) :
    ((∃ f ∈ knownFormats, formats.contains f = true ∧ fail f = true) →
      (daily_race_scraping_flow dateStr (.ok raw) validateTask transformTask rowCount
        (fun _ => export_processed_data fail dateStr formats) metricsTask).status =
        "failed") ∧
    ((∀ f ∈ knownFormats, formats.contains f = true → fail f = false) →
      (daily_race_scraping_flow dateStr (.ok raw) validateTask transformTask rowCount
        (fun _ => export_processed_data fail dateStr formats) metricsTask).status =
        "success" ∧
      (daily_race_scraping_flow dateStr (.ok raw) validateTask transformTask rowCount
        (fun _ => export_processed_data fail dateStr formats) metricsTask).export_paths =
        some ((knownFormats.filter (fun f => formats.contains f)).map
          (fun f => (f, formatPath dateStr f)))) := by
  have hflow := flow_export_outcome dateStr raw validateTask transformTask rowCount
    (fun _ => export_processed_data fail dateStr formats) metricsTask df hraw hv ht hm
  constructor
  · rintro ⟨f, hf, hreq, hfl⟩
    rw [hflow, export_processed_data_fail fail dateStr formats f hf hreq hfl]
    rfl
  · intro hok
    rw [hflow, export_processed_data_all_ok fail dateStr formats hok]
    exact ⟨rfl, rfl⟩

/-- C2 witness: the amended theorem at a concrete run requesting parquet and csv with an oracle that fails exactly the csv export. -/
theorem export_failure_flips_run_failed_witness :
    ((∃ f ∈ knownFormats, (["parquet", "csv"] : List String).contains f = true ∧
        (fun g => g == "csv") f = true) →
      (daily_race_scraping_flow "2024-01-15" (.ok [[("date", some (Value.strV "x"))]])
        (fun _ => .ok true) (fun _ => .ok ([] : List String)) (fun _ => 0)
        (fun _ => export_processed_data (fun g => g == "csv") "2024-01-15" ["parquet", "csv"])
        (fun _ => .ok ())).status = "failed") ∧
    ((∀ f ∈ knownFormats, (["parquet", "csv"] : List String).contains f = true →
        (fun g => g == "csv") f = false) →
      (daily_race_scraping_flow "2024-01-15" (.ok [[("date", some (Value.strV "x"))]])
        (fun _ => .ok true) (fun _ => .ok ([] : List String)) (fun _ => 0)
        (fun _ => export_processed_data (fun g => g == "csv") "2024-01-15" ["parquet", "csv"])
        (fun _ => .ok ())).status = "success" ∧
      (daily_race_scraping_flow "2024-01-15" (.ok [[("date", some (Value.strV "x"))]])
        (fun _ => .ok true) (fun _ => .ok ([] : List String)) (fun _ => 0)
        (fun _ => export_processed_data (fun g => g == "csv") "2024-01-15" ["parquet", "csv"])
        (fun _ => .ok ())).export_paths =
        some ((knownFormats.filter (fun f => (["parquet", "csv"] : List String).contains f)).map
          (fun f => (f, formatPath "2024-01-15" f)))) :=
  export_failure_flips_run_failed (fun g => g == "csv") "2024-01-15"
    [[("date", some (Value.strV "x"))]] ([] : List String) (fun _ => 0)
    (fun _ => .ok true) (fun _ => .ok ([] : List String)) (fun _ => .ok ())
    ["parquet", "csv"] (by decide) rfl rfl rfl

/-- C2 counterexample: a run where the requested parquet export succeeds and the requested csv export fails terminates with status `failed`, not `success` as the claim states. -/
theorem export_partial_failure_counterexample :
    (daily_race_scraping_flow "2024-01-15" (.ok [[("date", some (Value.strV "x"))]])
      (fun _ => .ok true) (fun _ => .ok ([] : List String)) (fun _ => 0)
      (fun _ => export_processed_data (fun g => g == "csv") "2024-01-15" ["parquet", "csv"])
      (fun _ => .ok ())).status = "failed" ∧
    (daily_race_scraping_flow "2024-01-15" (.ok [[("date", some (Value.strV "x"))]])
      (fun _ => .ok true) (fun _ => .ok ([] : List String)) (fun _ => 0)
      (fun _ => export_processed_data (fun g => g == "csv") "2024-01-15" ["parquet", "csv"])
      (fun _ => .ok ())).status ≠ "success" ∧
    (fun g => g == "csv") "parquet" = false ∧
    (["parquet", "csv"] : List String).contains "parquet" = true := by
  decide

/-! ### C7 — low-volume anomaly detection -/

theorem lt_sub_two_sqrt_iff (c q v : ℚ) (hv : 0 ≤ v) :
    ((c : ℝ) < (q : ℝ) - 2 * Real.sqrt ((v : ℚ) : ℝ)) ↔ (c < q ∧ 4 * v < (q - c) ^ 2) := by
  have hv' : (0:ℝ) ≤ ((v:ℚ):ℝ) := by exact_mod_cast hv
  have hs : 0 ≤ Real.sqrt ((v:ℚ):ℝ) := Real.sqrt_nonneg _
  constructor
  · intro h
    have hcq : (c:ℝ) < (q:ℝ) := by nlinarith
    have h3 : Real.sqrt ((v:ℚ):ℝ) < ((q:ℝ) - (c:ℝ))/2 := by linarith
    have h4 := (Real.sqrt_lt' (by linarith : (0:ℝ) < ((q:ℝ)-(c:ℝ))/2)).mp h3
    refine ⟨by exact_mod_cast hcq, ?_⟩
    have h5 : ((4 * v : ℚ) : ℝ) < (((q - c)^2 : ℚ) : ℝ) := by push_cast; nlinarith
    exact_mod_cast h5
  · rintro ⟨h1, h2⟩
    have h1' : (c:ℝ) < (q:ℝ) := by exact_mod_cast h1
    have h2' : ((4 * v : ℚ) : ℝ) < (((q - c)^2 : ℚ) : ℝ) := by exact_mod_cast h2
    have h2r : (4:ℝ) * ((v:ℚ):ℝ) < ((q:ℝ)-(c:ℝ))^2 := by push_cast at h2'; nlinarith
    have h3 : Real.sqrt ((v:ℚ):ℝ) < ((q:ℝ)-(c:ℝ))/2 := by
      rw [Real.sqrt_lt' (by linarith : (0:ℝ) < ((q:ℝ)-(c:ℝ))/2)]
      nlinarith
    linarith

theorem nat_lt_sub_two_sqrt_iff (c : ℕ) (q v : ℚ) (hv : 0 ≤ v) :
    ((c : ℝ) < (q : ℝ) - 2 * Real.sqrt ((v : ℚ) : ℝ)) ↔
      ((c : ℚ) < q ∧ 4 * v < (q - (c : ℚ)) ^ 2) := by
  rw [show ((c : ℕ) : ℝ) = (((c : ℕ) : ℚ) : ℝ) by push_cast; ring]
  exact lt_sub_two_sqrt_iff _ q v hv

theorem sampleStd_pos {cs : List Nat} (h : 0 < sampleVarQ cs) : 0 < sampleStd cs := by
  unfold sampleStd
  rw [Real.sqrt_pos]
  exact_mod_cast h

theorem missingTrack_shape {rows : List MonRow} {a : Anomaly}
    (h : a ∈ missingTrackAnomalies rows) : ∃ t, a = .missingTrack t := by
  unfold missingTrackAnomalies at h
  rcases List.mem_filterMap.mp h with ⟨t, _, ht⟩
  split_ifs at ht with h1
  exact ⟨t, (Option.some_inj.mp ht).symm⟩

theorem dataQuality_shape {rows : List MonRow} {a : Anomaly}
    (h : a ∈ dataQualityAnomalies rows) : ∃ q, a = .dataQuality q := by
  unfold dataQualityAnomalies at h
  dsimp only at h
  split_ifs at h with h1 h2
  · rcases List.mem_singleton.mp h with rfl
    exact ⟨_, rfl⟩
  · exact absurd h (List.not_mem_nil a)
  · exact absurd h (List.not_mem_nil a)

theorem detect_anomalies_of_ne_nil {rows : List MonRow} (h : rows ≠ []) :
    (detect_data_anomalies rows).anomalies =
      lowVolumeAnomalies rows ++ missingTrackAnomalies rows ++ dataQualityAnomalies rows := by
  unfold detect_data_anomalies
  have he : rows.isEmpty = false := by
    cases rows with
    | nil => exact absurd rfl h
    | cons r t => rfl
  rw [he]
  simp

theorem lowVolume_flagged {rows : List MonRow} {d : String} {c : Nat}
    (hmem : (d, c) ∈ dailyCounts rows)
    (hlen : 2 ≤ (dailyCounts rows).length)
    (hstd : 0 < sampleStd ((dailyCounts rows).map Prod.snd))
    (hlow : (c : ℝ) < (meanQ ((dailyCounts rows).map Prod.snd) : ℝ) -
        2 * sampleStd ((dailyCounts rows).map Prod.snd)) :
    ∃ n thr dates, Anomaly.lowVolume n thr dates ∈ (detect_data_anomalies rows).anomalies ∧
      d ∈ dates := by
  classical
  have hne : rows ≠ [] := by
    intro hraw
    rw [hraw] at hmem
    simp [dailyCounts, uniqueDates] at hmem
  rw [detect_anomalies_of_ne_nil hne]
  unfold lowVolumeAnomalies
  dsimp only
  rw [if_pos ⟨hlen, hstd⟩]
  have hmemf : (d, c) ∈ (dailyCounts rows).filter
      (fun p => decide ((p.2 : ℝ) < (meanQ ((dailyCounts rows).map Prod.snd) : ℝ) -
        2 * sampleStd ((dailyCounts rows).map Prod.snd))) :=
    List.mem_filter.mpr ⟨hmem, by rw [decide_eq_true_eq]; exact hlow⟩
  rw [if_pos (List.length_pos.mpr (List.ne_nil_of_mem hmemf))]
  exact ⟨_, _, _, List.mem_append_left _ (List.mem_append_left _ (List.mem_singleton.mpr rfl)),
    List.mem_map.mpr ⟨(d, c), hmemf, rfl⟩⟩

theorem lowVolume_not_flagged {rows : List MonRow}
    (h : ¬ (2 ≤ (dailyCounts rows).length ∧
        0 < sampleStd ((dailyCounts rows).map Prod.snd))) :
    ∀ n thr dates, Anomaly.lowVolume n thr dates ∉ (detect_data_anomalies rows).anomalies := by
  intro n thr dates hmem
  by_cases hne : rows = []
  · rw [hne] at hmem
    simp [detect_data_anomalies] at hmem
  · rw [detect_anomalies_of_ne_nil hne] at hmem
    unfold lowVolumeAnomalies at hmem
    dsimp only at hmem
    rw [if_neg h] at hmem
    simp only [List.nil_append] at hmem
    rcases List.mem_append.mp hmem with h1 | h1
    · rcases missingTrack_shape h1 with ⟨t, ht⟩
      exact Anomaly.noConfusion ht
    · rcases dataQuality_shape h1 with ⟨q, hq⟩
      exact Anomaly.noConfusion hq

/-- C7 (amended): `detect_data_anomalies` flags as low-volume every day whose record count is strictly below `mean - 2 * std`, where the mean and the sample standard deviation are computed over the per-day counts of all days in the window; when that standard deviation is zero, no low-volume anomaly is emitted. -/
theorem detect_low_volume_amended (rows : List MonRow) :
    (∀ d c, (d, c) ∈ dailyCounts rows →
      2 ≤ (dailyCounts rows).length →
      0 < sampleStd ((dailyCounts rows).map Prod.snd) →
      (c : ℝ) < (meanQ ((dailyCounts rows).map Prod.snd) : ℝ) -
          2 * sampleStd ((dailyCounts rows).map Prod.snd) →
      ∃ n thr dates,
        Anomaly.lowVolume n thr dates ∈ (detect_data_anomalies rows).anomalies ∧ d ∈ dates) ∧
    (sampleStd ((dailyCounts rows).map Prod.snd) = 0 →
      ∀ n thr dates, Anomaly.lowVolume n thr dates ∉ (detect_data_anomalies rows).anomalies) :=
  ⟨fun _ _ hmem hlen hstd hlow => lowVolume_flagged hmem hlen hstd hlow,
   fun hz => lowVolume_not_flagged (fun hc => by rw [hz] at hc; exact lt_irrefl 0 hc.2)⟩

/-- C7 witness: the amended theorem on the dataset with counts 5, 5, 5, 5, 5, 5, 1, whose day `d7` lies below the all-days threshold. -/
theorem detect_low_volume_amended_witness :
    ∃ n thr dates,
      Anomaly.lowVolume n thr dates ∈ (detect_data_anomalies rows31).anomalies ∧
        "d7" ∈ dates := by
  have hcounts : dailyCounts rows31 =
      [("d1", 5), ("d2", 5), ("d3", 5), ("d4", 5), ("d5", 5), ("d6", 5), ("d7", 1)] := by
    decide
  have hvar : sampleVarQ ((dailyCounts rows31).map Prod.snd) = 16/7 := by
    rw [hcounts]; norm_num [sampleVarQ, meanQ]
  have hmean : meanQ ((dailyCounts rows31).map Prod.snd) = 31/7 := by
    rw [hcounts]; norm_num [meanQ]
  have hstd : 0 < sampleStd ((dailyCounts rows31).map Prod.snd) :=
    sampleStd_pos (by rw [hvar]; norm_num)
  refine (detect_low_volume_amended rows31).1 "d7" 1 (by rw [hcounts]; decide)
    (by rw [hcounts]; decide) hstd ?_
  unfold sampleStd
  rw [hmean, hvar]
  rw [nat_lt_sub_two_sqrt_iff 1 (31/7) (16/7) (by norm_num)]
  constructor <;> norm_num

/-- C7 counterexample: in the dataset with counts 4, 5, 6, 6, 3, 7, 8, the count of day `d5` is more than two sample standard deviations below the mean of the other six days (mean 6, standard deviation √2 > 0), yet `detect_data_anomalies` flags no low-volume day at all — the code measures against the mean and standard deviation of all seven days, refuting the claim. -/
theorem detect_low_volume_counterexample :
    ((3 : ℕ) : ℝ) <
      (meanQ (((dailyCounts rows39).filter (fun p => !(p.1 == "d5"))).map Prod.snd) : ℝ) -
        2 * sampleStd (((dailyCounts rows39).filter (fun p => !(p.1 == "d5"))).map Prod.snd) ∧
    0 < sampleStd (((dailyCounts rows39).filter (fun p => !(p.1 == "d5"))).map Prod.snd) ∧
    ("d5", 3) ∈ dailyCounts rows39 ∧
    ∀ n thr dates,
      Anomaly.lowVolume n thr dates ∈ (detect_data_anomalies rows39).anomalies →
        "d5" ∉ dates := by
  classical
  have hcounts : dailyCounts rows39 =
      [("d1", 4), ("d2", 5), ("d3", 6), ("d4", 6), ("d5", 3), ("d6", 7), ("d7", 8)] := by
    decide
  have hothers : ((dailyCounts rows39).filter (fun p => !(p.1 == "d5"))).map Prod.snd
      = [4, 5, 6, 6, 7, 8] := by
    rw [hcounts]; decide
  have hvo : sampleVarQ [4, 5, 6, 6, 7, 8] = 2 := by norm_num [sampleVarQ, meanQ]
  have hmo : meanQ [4, 5, 6, 6, 7, 8] = 6 := by norm_num [meanQ]
  have hv : sampleVarQ ((dailyCounts rows39).map Prod.snd) = 62/21 := by
    rw [hcounts]; norm_num [sampleVarQ, meanQ]
  have hm : meanQ ((dailyCounts rows39).map Prod.snd) = 39/7 := by
    rw [hcounts]; norm_num [meanQ]
  refine ⟨?_, ?_, by rw [hcounts]; decide, ?_⟩
  · rw [hothers]
    unfold sampleStd
    rw [hvo, hmo]
    rw [nat_lt_sub_two_sqrt_iff 3 6 2 (by norm_num)]
    constructor <;> norm_num
  · rw [hothers]
    exact sampleStd_pos (by rw [hvo]; norm_num)
  · intro n thr dates hmem hd5
    rw [detect_anomalies_of_ne_nil (by decide : rows39 ≠ [])] at hmem
    have hfilter : (dailyCounts rows39).filter
        (fun p => decide ((p.2 : ℝ) < (meanQ ((dailyCounts rows39).map Prod.snd) : ℝ) -
          2 * sampleStd ((dailyCounts rows39).map Prod.snd))) = [] := by
      rw [List.filter_eq_nil_iff]
      intro p hp
      rw [decide_eq_true_eq]
      unfold sampleStd
      rw [hv, hm]
      rw [hcounts] at hp
      rw [nat_lt_sub_two_sqrt_iff p.2 (39/7) (62/21) (by norm_num)]
      fin_cases hp <;> norm_num
    rcases List.mem_append.mp hmem with h1 | h1
    · rcases List.mem_append.mp h1 with h2 | h2
      · unfold lowVolumeAnomalies at h2
        dsimp only at h2
        rw [if_pos ⟨by rw [hcounts]; norm_num,
            sampleStd_pos (by rw [hv]; norm_num)⟩] at h2
        rw [hfilter] at h2
        simp at h2
      · rcases missingTrack_shape h2 with ⟨t, ht⟩
        exact Anomaly.noConfusion ht
    · rcases dataQuality_shape h1 with ⟨q, hq⟩
      exact Anomaly.noConfusion hq
